import Mathlib

/-!
Shallow embedding of the `mqwrapper` package (envelope codec, handler
registry, session wrapper) of the Hurricanezwf/pkg repository.

Bytes are modelled as `Nat` (every Go `[]byte` element lies below 256);
Go `uint32` arithmetic is `Nat` arithmetic reduced modulo `4294967296`
exactly where the source converts or overflows; Go `int32` values are
`Int`s in `[-2147483648, 2147483648)`.  The gzip stream library used by
`Compress`/`Decompress` is external to the repository, so it is kept
abstract as a `GzipCodec` record of a compression and a decompression
function; `Compress` itself never returns an error in the source (level
5 is a valid gzip level and writes to a `bytes.Buffer` cannot fail), so
the compression side is total.
-/

namespace Mqw

/-- The external gzip collaborator behind `Compress`/`Decompress`. -/
structure GzipCodec where
  compress : List Nat → List Nat
  decompress : List Nat → Except String (List Nat)

/-- A trivial codec (identity compression); used to instantiate theorems
at concrete inputs. -/
def idGzipCodec : GzipCodec :=
  ⟨fun b => b, fun b => Except.ok b⟩

/-- A codec whose compressed output is `2^32 - 12` bytes long, the size
class at which the `uint32` cast in `Encode`'s length check wraps. -/
def hugeGzipCodec : GzipCodec :=
  ⟨fun _ => List.replicate 4294967284 0, fun _ => Except.error "unused"⟩

/-- `binary.BigEndian.PutUint32`: the four big-endian bytes of a uint32. -/
def putUint32 (v : Nat) : List Nat :=
  [v / 16777216 % 256, v / 65536 % 256, v / 256 % 256, v % 256]

/-- `binary.BigEndian.Uint32` read at offset `off` of a byte list. -/
def getUint32 (b : List Nat) (off : Nat) : Nat :=
  b.getD off 0 * 16777216 + b.getD (off + 1) 0 * 65536 +
    b.getD (off + 2) 0 * 256 + b.getD (off + 3) 0

/-- Go `uint32(actionKey)` for an `int32` action key: two's-complement
reinterpretation, i.e. reduction modulo 2^32. -/
def intToUint32 (a : Int) : Nat :=
  (a % 4294967296).toNat

/-- Go `int32(u)` for a wire `uint32`: values at or above 2^31 represent
negatives. -/
def uint32ToInt32 (u : Nat) : Int :=
  if u < 2147483648 then (u : Int) else (u : Int) - 4294967296

/-- `msgEncoderV1`: magic byte and maximum segment length. -/
structure MsgEncoderV1 where
  magicN : Nat
  maxSegmentLen : Nat

/-- `newMsgEncoderV1()`: magic `0x22`, default 5 MiB segment limit. -/
def newMsgEncoderV1 : MsgEncoderV1 :=
  ⟨34, 5242880⟩

/-- The body that `Encode` frames: the source replaces `msgBody` by
`Compress(msgBody)` exactly when `len(msgBody) > 51200`. -/
def encBody (g : GzipCodec) (msgBody : List Nat) : List Nat :=
  if msgBody.length > 51200 then g.compress msgBody else msgBody

/-- The frame `Encode` builds in `buf`: magic byte at offset 0, option
byte (`0x80` iff compressed) at offset 1, two zero option bytes, the
action key as big-endian `uint32(actionKey)` at offset 4, the body
length as big-endian `uint32(len(msgBody))` at offset 8, then the
(possibly compressed) body. -/
def frameOf (g : GzipCodec) (e : MsgEncoderV1) (actionKey : Int) (msgBody : List Nat) :
    List Nat :=
  e.magicN :: (if msgBody.length > 51200 then 128 else 0) :: 0 :: 0 ::
    (putUint32 (intToUint32 actionKey) ++
      putUint32 ((encBody g msgBody).length % 4294967296) ++ encBody g msgBody)

/-- `msgEncoderV1.Encode`: compress bodies above 51200 bytes, then
reject when `uint32(segmentLen) > maxSegmentLen` (the Go comparison
converts the `int` segment length to `uint32`, hence the modulus), else
emit the frame. -/
def Encode (g : GzipCodec) (e : MsgEncoderV1) (actionKey : Int) (msgBody : List Nat) :
    Except String (List Nat) :=
  if (12 + (encBody g msgBody).length) % 4294967296 > e.maxSegmentLen then
    Except.error "msg too long"
  else
    Except.ok (frameOf g e actionKey msgBody)

/-- Whether an `Encode` call produced a frame. -/
def isOkFrame : Except String (List Nat) → Bool
  | Except.ok _ => true
  | Except.error _ => false

/-- Outcome of `msgEncoderV1.Decode`: a decoded message, a returned
error, or a Go runtime panic (out-of-range slice bounds). -/
inductive DecodeResult where
  | ok (action : Int) (msgBody : List Nat)
  | err (msg : String)
  | panicked (msg : String)
deriving DecidableEq

/-- `msgEncoderV1.Decode`.  The source checks `uint32(len(b))` against
the maximum, requires at least 12 bytes, verifies the magic byte, reads
bit `0x80` of the option byte, reads the action key and declared body
length, computes `bodyEnd := offset + msgBodyLen` in `uint32` (wrapping
modulo 2^32), rejects when `bodyEnd > uint32(len(b))`, and then slices
`b[12:bodyEnd]` — a Go slice expression that panics unless
`12 ≤ bodyEnd ≤ len(b)`. -/
def Decode (g : GzipCodec) (e : MsgEncoderV1) (b : List Nat) : DecodeResult :=
  if b.length % 4294967296 > e.maxSegmentLen then
    DecodeResult.err "msg is too long"
  else if b.length < 12 then
    DecodeResult.err "msg too short"
  else if b.getD 0 0 ≠ e.magicN then
    DecodeResult.err "bad msg format, magicN didn't match"
  else
    let isCompressed := b.getD 1 0 &&& 128 > 0
    let action := uint32ToInt32 (getUint32 b 4)
    let msgBodyLen := getUint32 b 8
    let bodyEnd := (12 + msgBodyLen) % 4294967296
    if bodyEnd > b.length % 4294967296 then
      DecodeResult.err "msg too short"
    else if bodyEnd < 12 ∨ bodyEnd > b.length then
      DecodeResult.panicked "slice bounds out of range"
    else
      let msgBody := (b.drop 12).take (bodyEnd - 12)
      if isCompressed then
        match g.decompress msgBody with
        | Except.ok mb => DecodeResult.ok action mb
        | Except.error er => DecodeResult.err ("Decompress msg body failed, " ++ er)
      else
        DecodeResult.ok action msgBody

/-- A 12-byte frame with a correct magic byte and a declared body length
of `0xFFFFFFFF`: `bodyEnd` wraps to 11 and `Decode` slices `b[12:11]`. -/
def corruptLenFrame : List Nat :=
  [34, 0, 0, 0, 0, 0, 0, 0, 255, 255, 255, 255]

/-- Events observable from one spawned `handleMsg` task, in program
order. -/
inductive Ev where
  | debugLog
  | warnLog
  | handlerStart (action : Int) (msgBody : List Nat)
  | handlerDone
  | ack
deriving DecidableEq

/-- The wrapper state that `handleMsg` reads: decoder, handler registry,
and which log sinks are configured. -/
structure HandleEnv (H : Type) where
  g : GzipCodec
  e : MsgEncoderV1
  handlers : Int → Option H
  debugOn : Bool
  warnOn : Bool

/-- Event trace of one `MQWrapper.handleMsg` invocation.  The source
registers `defer d.Ack(false)` first, so the acknowledgement is emitted
when the function returns — after the handler call `h(actionKey,
msgBody)`, which runs synchronously inside this (spawned) task.  The
enclosing `consumeFromLoop` starts `handleMsg` with `go` and does not
wait for it.  On a decode panic the deferred acknowledgement still runs
during unwinding before the goroutine crashes the process. -/
def handleMsgTrace {H : Type} (w : HandleEnv H) (dBody : List Nat) : List Ev :=
  let pre := if w.debugOn then [Ev.debugLog] else []
  match Decode w.g w.e dBody with
  | DecodeResult.err _ => pre ++ (if w.warnOn then [Ev.warnLog] else []) ++ [Ev.ack]
  | DecodeResult.panicked _ => pre ++ [Ev.ack]
  | DecodeResult.ok a mb =>
    match w.handlers a with
    | none => pre ++ (if w.warnOn then [Ev.warnLog] else []) ++ [Ev.ack]
    | some _ => pre ++ [Ev.handlerStart a mb, Ev.handlerDone, Ev.ack]

/-- Some acknowledgement event strictly precedes some handler-completion
event in the trace. -/
def ackBeforeHandlerDone (t : List Ev) : Prop :=
  ∃ i : Fin t.length, ∃ j : Fin t.length,
    i.1 < j.1 ∧ t.get i = Ev.ack ∧ t.get j = Ev.handlerDone

/-- A registry holding one handler, for action key 7. -/
def cxHandlers : Int → Option Unit :=
  fun k => if k = 7 then some () else none

/-- A concrete wrapper environment: default encoder, handler for action
7, no log sinks. -/
def cxEnv : HandleEnv Unit :=
  ⟨idGzipCodec, newMsgEncoderV1, cxHandlers, false, false⟩

/-- The encoding of action 7 with body `[9]`. -/
def cxFrame : List Nat :=
  [34, 0, 0, 0, 0, 0, 0, 7, 0, 0, 0, 1, 9]

/-- What one `MQWrapper.Post` call did: the returned error, the number
of `producer.Publish` attempts, and the number of warning events sent to
the warning sink. -/
structure PostResult where
  err : Option String
  attempts : Nat
  warns : Nat
deriving DecidableEq

/-- The retry loop `for i := 0; i < retry+1; i++` of `MQWrapper.Post`.
`publish i` is attempt `i`'s transport outcome (`none` = success).  Each
failed attempt is warned about; success breaks out of the loop; the
`err` component is the loop variable `err` on exit (`none` when the loop
body never ran, since `err` was nil after the successful encode). -/
def postLoop (publish : Nat → Option String) : Nat → Nat → Option String × Nat × Nat
  | _, 0 => (none, 0, 0)
  | i, 1 =>
    match publish i with
    | none => (none, 1, 0)
    | some er => (some er, 1, 1)
  | i, n + 2 =>
    match publish i with
    | none => (none, 1, 0)
    | some _ =>
      let r := postLoop publish (i + 1) (n + 1)
      (r.1, r.2.1 + 1, r.2.2 + 1)

/-- `MQWrapper.Post`: refuse when the producer role is disabled, wait on
the readiness gate (a pure suspension, invisible here), encode (the
result is passed in as `enc`), then run the retry loop; warnings reach
the sink only when one is configured (`warnOn`). -/
def Post (enableProducer : Bool) (warnOn : Bool) (enc : Except String (List Nat))
    (publish : Nat → Option String) (retry : Int) : PostResult :=
  if enableProducer = false then
    ⟨some "Producer is disabled", 0, 0⟩
  else
    match enc with
    | Except.error e => ⟨some e, 0, 0⟩
    | Except.ok _ =>
      let r := postLoop publish 0 (retry + 1).toNat
      ⟨r.1, r.2.1, if warnOn then r.2.2 else 0⟩

/-- `MQWrapper.RegistActionHandler`: reject a nil handler, reject a key
that already has a handler, otherwise extend the registry.  (The
source's lazy `make` of a nil map is invisible in this functional
registry.) -/
def RegistActionHandler {H : Type} (handlers : Int → Option H) (actionKey : Int)
    (f : Option H) : Except String (Int → Option H) :=
  if f.isNone then
    Except.error ("Msg handler for '" ++ toString actionKey ++ "' is nil")
  else if (handlers actionKey).isSome then
    Except.error ("Msg handler for '" ++ toString actionKey ++ "' had been existed")
  else
    Except.ok (fun k => if k = actionKey then f else handlers k)

/-- `MQWrapper.findHandler`: a plain map lookup, `none` when absent. -/
def findHandler {H : Type} (handlers : Int → Option H) (actionKey : Int) : Option H :=
  handlers actionKey

/-- The state `MQWrapper.Close` touches: whether the transport handle is
set, and the stop channel (`none` = nil, `some false` = open,
`some true` = closed). -/
structure CloseState where
  mPresent : Bool
  stopCh : Option Bool
deriving DecidableEq

/-- Go `close` on a channel: panics on a nil or already-closed channel. -/
def closeChan : Option Bool → Except String (Option Bool)
  | none => Except.error "close of nil channel"
  | some true => Except.error "close of closed channel"
  | some false => Except.ok (some true)

/-- What one `Close` call did: resulting state, the returned error and
how many `close(stopConsumeCh)` operations it performed. -/
structure CloseOutcome where
  state : CloseState
  result : Option String
  chanCloses : Nat
deriving DecidableEq

/-- `MQWrapper.Close`: `m.Close()` on the transport (external, wrapper
fields unchanged), then a guarded close of the stop channel — a select
that receives from the channel when it is already closed (doing
nothing) and only otherwise runs `close`.  An `Except.error` would be a
Go panic; the guard makes it unreachable. -/
def Close (s : CloseState) : Except String CloseOutcome :=
  match s.stopCh with
  | none => Except.ok ⟨s, none, 0⟩
  | some true => Except.ok ⟨s, none, 0⟩
  | some false =>
    match closeChan s.stopCh with
    | Except.ok c => Except.ok ⟨{ s with stopCh := c }, none, 1⟩
    | Except.error e => Except.error e

/-- The `Config` fields `ValidateConf` inspects (`readyPresent` models
`Ready != nil`). -/
structure Config where
  readyPresent : Bool
  mqUrl : String
  enableProducer : Bool
  producerExchange : String
  producerExchangeKind : String
  producerQueue : String
  producerRouteKey : String
  enableConsumer : Bool
  consumerExchange : String
  consumerExchangeKind : String
  consumerQueue : String
  consumerRouteKey : String
deriving DecidableEq

/-- The producer-role block of `MQWrapper.ValidateConf` (check order and
message text as in the source, typos included). -/
def validateProducerConf (conf : Config) : Option String :=
  if conf.enableProducer = true then
    if conf.producerExchange.length ≤ 0 then some "Missing 'ProducerExchange'"
    else if conf.producerQueue.length ≤ 0 then some "Missing 'ProducerQueue'"
    else if conf.producerRouteKey.length ≤ 0 then some "Missing 'ProdicerRoutekey'"
    else if conf.producerExchangeKind.length ≤ 0 then some "Missing 'ProducerExchangeKind'"
    else none
  else none

/-- The consumer-role block of `MQWrapper.ValidateConf`. -/
def validateConsumerConf (conf : Config) : Option String :=
  if conf.enableConsumer = true then
    if conf.consumerExchange.length ≤ 0 then some "Missin 'ConsumerExchange'"
    else if conf.consumerQueue.length ≤ 0 then some "Missing 'ConsumerQueue'"
    else if conf.consumerRouteKey.length ≤ 0 then some "Missing 'ConsumerRouteKey'"
    else if conf.consumerExchangeKind.length ≤ 0 then some "Missing 'ConsumerExchangeKind'"
    else none
  else none

/-- `MQWrapper.ValidateConf`: readiness gate, broker URL, then the
per-role required fields, returning the first failure. -/
def ValidateConf (conf : Config) : Option String :=
  if conf.readyPresent = false then some "Ready flag in config is nil"
  else if conf.mqUrl.length ≤ 0 then some "Missing 'MQUrl'"
  else
    match validateProducerConf conf with
    | some e => some e
    | none => validateConsumerConf conf

/-- Outcomes of the external transport calls `Open` makes, in order:
`mq.New(url).Open()`, producer session creation and open, consumer
session creation and open (`none` = success). -/
structure Transport where
  connectErr : Option String
  producerSessionErr : Option String
  producerOpenErr : Option String
  consumerSessionErr : Option String
  consumerOpenErr : Option String

/-- The `MQWrapper` fields `Open` populates: the wrapper id (assigned
before validation), and whether each resource was established. -/
structure OpenState where
  id : String
  confSet : Bool
  mSet : Bool
  producerSet : Bool
  consumerSet : Bool
  deliverySet : Bool
  stopChSet : Bool
  stopChClosed : Bool
  loopStarted : Bool
deriving DecidableEq

/-- The effect on wrapper fields of the `w.Close()` that `Open` runs on
any failure: the transport handle is closed but the fields stay set; the
stop channel is closed when it was created. -/
def closeDuringOpen (s : OpenState) : OpenState :=
  { s with stopChClosed := s.stopChSet }

/-- `MQWrapper.Open`: assign id and conf, validate, connect, establish
the producer session (when enabled), then the consumer session,
delivery channel, stop channel and dispatch loop (when enabled); on any
error jump to FINISH, which calls `w.Close()` and returns the error. -/
def OpenW (tr : Transport) (wrapperId : String) (conf : Config) :
    Option String × OpenState :=
  let s0 : OpenState :=
    { id := wrapperId, confSet := true, mSet := false, producerSet := false,
      consumerSet := false, deliverySet := false, stopChSet := false,
      stopChClosed := false, loopStarted := false }
  match ValidateConf conf with
  | some e => (some e, closeDuringOpen s0)
  | none =>
    match tr.connectErr with
    | some e => (some e, closeDuringOpen s0)
    | none =>
      let s1 := { s0 with mSet := true }
      let afterProducer : Option String × OpenState :=
        if conf.enableProducer then
          match tr.producerSessionErr with
          | some e => (some e, s1)
          | none =>
            match tr.producerOpenErr with
            | some e => (some e, s1)
            | none => (none, { s1 with producerSet := true })
        else (none, s1)
      match afterProducer with
      | (some e, s) => (some e, closeDuringOpen s)
      | (none, s2) =>
        if conf.enableConsumer then
          match tr.consumerSessionErr with
          | some e => (some e, closeDuringOpen s2)
          | none =>
            let s3 := { s2 with deliverySet := true, stopChSet := true }
            match tr.consumerOpenErr with
            | some e => (some e, closeDuringOpen s3)
            | none => (none, { s3 with consumerSet := true, loopStarted := true })
        else (none, s2)

/-- A required-field failure of the kind claim C9 enumerates. -/
def missingRequiredField (conf : Config) : Prop :=
  conf.readyPresent = false ∨ conf.mqUrl.length = 0 ∨
    (conf.enableProducer = true ∧
      (conf.producerExchange.length = 0 ∨ conf.producerQueue.length = 0 ∨
        conf.producerRouteKey.length = 0 ∨ conf.producerExchangeKind.length = 0)) ∨
    (conf.enableConsumer = true ∧
      (conf.consumerExchange.length = 0 ∨ conf.consumerQueue.length = 0 ∨
        conf.consumerRouteKey.length = 0 ∨ conf.consumerExchangeKind.length = 0))

/-- A configuration whose readiness gate is missing. -/
def cxBadConf : Config :=
  { readyPresent := false, mqUrl := "amqp://localhost", enableProducer := true,
    producerExchange := "ex", producerExchangeKind := "direct", producerQueue := "q",
    producerRouteKey := "rk", enableConsumer := false, consumerExchange := "",
    consumerExchangeKind := "", consumerQueue := "", consumerRouteKey := "" }

/-- A transport stub whose calls all succeed. -/
def cxTransport : Transport :=
  ⟨none, none, none, none, none⟩


/-! Helper lemmas about the codec arithmetic. -/

theorem intToUint32_lt (a : Int) : intToUint32 a < 4294967296 := by
  simp only [intToUint32]; omega

theorem uint32ToInt32_intToUint32 (a : Int) (h1 : -2147483648 ≤ a) (h2 : a < 2147483648) :
    uint32ToInt32 (intToUint32 a) = a := by
  simp only [intToUint32, uint32ToInt32]
  split <;> omega

theorem putUint32_recombine (v : Nat) (hv : v < 4294967296) :
    v / 16777216 % 256 * 16777216 + v / 65536 % 256 * 65536 + v / 256 % 256 * 256 + v % 256
      = v := by
  omega

/-- Decoding a structurally explicit well-formed frame: length and magic
checks pass, the option byte selects the decompression branch, and the
body is recovered verbatim. -/
theorem decode_explicit (g : GzipCodec) (e : MsgEncoderV1)
    (o z1 z2 a0 a1 a2 a3 l0 l1 l2 l3 : Nat) (body : List Nat)
    (hmax : e.maxSegmentLen < 4294967296)
    (hlen : 12 + body.length ≤ e.maxSegmentLen)
    (hl : l0 * 16777216 + l1 * 65536 + l2 * 256 + l3 = body.length) :
    Decode g e
        (e.magicN :: o :: z1 :: z2 :: a0 :: a1 :: a2 :: a3 :: l0 :: l1 :: l2 :: l3 :: body) =
      if o &&& 128 > 0 then
        match g.decompress body with
        | Except.ok mb =>
            DecodeResult.ok (uint32ToInt32 (a0 * 16777216 + a1 * 65536 + a2 * 256 + a3)) mb
        | Except.error er =>
            DecodeResult.err ("Decompress msg body failed, " ++ er)
      else
        DecodeResult.ok (uint32ToInt32 (a0 * 16777216 + a1 * 65536 + a2 * 256 + a3)) body := by
  have hL : (e.magicN :: o :: z1 :: z2 :: a0 :: a1 :: a2 :: a3 :: l0 :: l1 :: l2 :: l3 :: body).length
      = body.length + 12 := by
    simp
  have h0 : (e.magicN :: o :: z1 :: z2 :: a0 :: a1 :: a2 :: a3 :: l0 :: l1 :: l2 :: l3 :: body).getD 0 0
      = e.magicN := rfl
  have h1 : (e.magicN :: o :: z1 :: z2 :: a0 :: a1 :: a2 :: a3 :: l0 :: l1 :: l2 :: l3 :: body).getD 1 0
      = o := rfl
  have h4 : getUint32 (e.magicN :: o :: z1 :: z2 :: a0 :: a1 :: a2 :: a3 :: l0 :: l1 :: l2 :: l3 :: body) 4
      = a0 * 16777216 + a1 * 65536 + a2 * 256 + a3 := rfl
  have h8 : getUint32 (e.magicN :: o :: z1 :: z2 :: a0 :: a1 :: a2 :: a3 :: l0 :: l1 :: l2 :: l3 :: body) 8
      = l0 * 16777216 + l1 * 65536 + l2 * 256 + l3 := rfl
  have hdrop : (e.magicN :: o :: z1 :: z2 :: a0 :: a1 :: a2 :: a3 :: l0 :: l1 :: l2 :: l3 :: body).drop 12
      = body := rfl
  rw [Decode, hL, h0, h1, h4, h8, hdrop, hl]
  have hmod : (body.length + 12) % 4294967296 = body.length + 12 := Nat.mod_eq_of_lt (by omega)
  rw [hmod]
  rw [if_neg (by omega), if_neg (by omega), if_neg (by simp)]
  have hmod2 : (12 + body.length) % 4294967296 = 12 + body.length := Nat.mod_eq_of_lt (by omega)
  simp only [hmod2]
  rw [if_neg (by omega), if_neg (by omega)]
  rw [show 12 + body.length - 12 = body.length from by omega, List.take_length]

/-- Successful encoding emits exactly the documented frame. -/
theorem encode_ok (g : GzipCodec) (e : MsgEncoderV1) (a : Int) (p : List Nat)
    (hlen : 12 + (encBody g p).length ≤ e.maxSegmentLen)
    (hmax : e.maxSegmentLen < 4294967296) :
    Encode g e a p = Except.ok (frameOf g e a p) := by
  rw [Encode, if_neg (by omega)]

/-- Decoding the frame of `Encode` recovers the action key and the
original payload. -/
theorem decode_frameOf (g : GzipCodec) (a : Int) (p : List Nat)
    (ha1 : -2147483648 ≤ a) (ha2 : a < 2147483648)
    (hg : 51200 < p.length → g.decompress (g.compress p) = Except.ok p)
    (hlen : 12 + (encBody g p).length ≤ 5242880) :
    Decode g newMsgEncoderV1 (frameOf g newMsgEncoderV1 a p) = DecodeResult.ok a p := by
  have hbl : (encBody g p).length < 4294967296 := by omega
  have hlv : (encBody g p).length % 4294967296 = (encBody g p).length := Nat.mod_eq_of_lt hbl
  have hshape : frameOf g newMsgEncoderV1 a p =
      newMsgEncoderV1.magicN :: (if p.length > 51200 then 128 else 0) :: 0 :: 0 ::
        intToUint32 a / 16777216 % 256 :: intToUint32 a / 65536 % 256 ::
        intToUint32 a / 256 % 256 :: intToUint32 a % 256 ::
        (encBody g p).length / 16777216 % 256 :: (encBody g p).length / 65536 % 256 ::
        (encBody g p).length / 256 % 256 :: (encBody g p).length % 256 :: encBody g p := by
    simp only [frameOf, putUint32, List.cons_append, List.nil_append, hlv]
  rw [hshape,
    decode_explicit g newMsgEncoderV1 _ _ _ _ _ _ _ _ _ _ _ _ (by decide)
      hlen (putUint32_recombine _ hbl),
    putUint32_recombine _ (intToUint32_lt a), uint32ToInt32_intToUint32 a ha1 ha2]
  by_cases hc : 51200 < p.length
  · rw [if_pos hc]
    rw [if_pos (by decide : (128 : Nat) &&& 128 > 0)]
    rw [show encBody g p = g.compress p from by simp [encBody, hc], hg hc]
  · rw [if_neg hc]
    rw [if_neg (by decide : ¬((0 : Nat) &&& 128 > 0))]
    rw [show encBody g p = p from by simp [encBody, hc]]

/-- C1: for every int32 action key (negative values included) and every
payload — the empty payload included — whose post-compression framed
size is at most the default maximum segment length of 5242880 bytes,
`Decode (Encode action payload)` succeeds and returns exactly the
original action key and payload (assuming the gzip collaborator inverts
its own compression, which is only exercised above the 51200-byte
threshold). -/
theorem c1_encode_decode_roundtrip (g : GzipCodec) (a : Int) (p : List Nat)
    (ha1 : -2147483648 ≤ a) (ha2 : a < 2147483648)
    (hg : 51200 < p.length → g.decompress (g.compress p) = Except.ok p)
    (hlen : 12 + (encBody g p).length ≤ 5242880) :
    ∃ f, Encode g newMsgEncoderV1 a p = Except.ok f ∧
      Decode g newMsgEncoderV1 f = DecodeResult.ok a p :=
  ⟨frameOf g newMsgEncoderV1 a p,
    encode_ok g newMsgEncoderV1 a p hlen (by decide),
    decode_frameOf g a p ha1 ha2 hg hlen⟩

/-- C1 witness: round trip at action key -1 and payload `[7]`. -/
theorem c1_encode_decode_roundtrip_witness :
    ∃ f, Encode idGzipCodec newMsgEncoderV1 (-1) [7] = Except.ok f ∧
      Decode idGzipCodec newMsgEncoderV1 f = DecodeResult.ok (-1) [7] :=
  c1_encode_decode_roundtrip idGzipCodec (-1) [7] (by decide) (by decide)
    (fun h => absurd h (by decide)) (by decide)


/-- C4: `Encode` compresses exactly the payloads longer than 51200
bytes and records that in bit 0 of the option byte (`0x80`); a payload
of exactly 51200 bytes is framed uncompressed, one of 51201 bytes is
framed compressed, and both frames decode back to the original bytes
(the compressed one assuming the gzip collaborator inverts its own
compression and its output keeps the frame within the maximum). -/
theorem c4_compression_boundary (g : GzipCodec) (a : Int) (p1 p2 : List Nat)
    (ha1 : -2147483648 ≤ a) (ha2 : a < 2147483648)
    (h1 : p1.length = 51200) (h2 : p2.length = 51201)
    (hg : g.decompress (g.compress p2) = Except.ok p2)
    (hc : 12 + (g.compress p2).length ≤ 5242880) :
    (Encode g newMsgEncoderV1 a p1 = Except.ok (frameOf g newMsgEncoderV1 a p1) ∧
      (frameOf g newMsgEncoderV1 a p1).getD 1 0 = 0 ∧
      Decode g newMsgEncoderV1 (frameOf g newMsgEncoderV1 a p1) = DecodeResult.ok a p1) ∧
    (Encode g newMsgEncoderV1 a p2 = Except.ok (frameOf g newMsgEncoderV1 a p2) ∧
      (frameOf g newMsgEncoderV1 a p2).getD 1 0 = 128 ∧
      Decode g newMsgEncoderV1 (frameOf g newMsgEncoderV1 a p2) = DecodeResult.ok a p2) ∧
    (∀ q f, Encode g newMsgEncoderV1 a q = Except.ok f →
      (f.getD 1 0 = 128 ↔ 51200 < q.length)) := by
  have hb1 : encBody g p1 = p1 := by simp [encBody, h1]
  have hb2 : encBody g p2 = g.compress p2 := by simp [encBody, h2]
  have hlen1 : 12 + (encBody g p1).length ≤ 5242880 := by rw [hb1]; omega
  have hlen2 : 12 + (encBody g p2).length ≤ 5242880 := by rw [hb2]; exact hc
  refine ⟨⟨encode_ok g newMsgEncoderV1 a p1 hlen1 (by decide), ?_, ?_⟩,
    ⟨encode_ok g newMsgEncoderV1 a p2 hlen2 (by decide), ?_, ?_⟩, ?_⟩
  · simp [frameOf, h1]
  · exact decode_frameOf g a p1 ha1 ha2 (fun h => absurd h (by omega)) hlen1
  · simp [frameOf, h2]
  · exact decode_frameOf g a p2 ha1 ha2 (fun _ => hg) hlen2
  · intro q f hf
    rw [Encode] at hf
    split at hf
    · exact absurd hf (by simp)
    · have hfq : f = frameOf g newMsgEncoderV1 a q := by
        injection hf with h
        exact h.symm
      subst hfq
      by_cases hq : 51200 < q.length
      · simp [frameOf, if_pos hq, hq]
      · simp [frameOf, if_neg hq, hq]

/-- C4 witness: the boundary at concrete payloads of 51200 and 51201
zero bytes with the identity compression collaborator. -/
theorem c4_compression_boundary_witness :
    (frameOf idGzipCodec newMsgEncoderV1 0 (List.replicate 51200 0)).getD 1 0 = 0 ∧
    (frameOf idGzipCodec newMsgEncoderV1 0 (List.replicate 51201 0)).getD 1 0 = 128 := by
  have h := c4_compression_boundary idGzipCodec 0 (List.replicate 51200 0)
    (List.replicate 51201 0) (by decide) (by decide)
    (by rw [List.length_replicate]) (by rw [List.length_replicate]) rfl
    (by have hx : (idGzipCodec.compress (List.replicate 51201 0)).length = 51201 := by
          show (List.replicate 51201 0).length = 51201
          rw [List.length_replicate]
        rw [hx]
        decide)
  exact ⟨h.1.2.1, h.2.1.2.1⟩

/-- C5 (code bug): the source's `bodyEnd := offset + msgBodyLen` is
computed in `uint32`.  On a 12-byte frame with a correct magic byte and
a declared body length of `0xFFFFFFFF`, `bodyEnd` wraps to 11, passes
the `bodyEnd > uint32(len(b))` guard, and the slice `b[12:11]` panics at
run time instead of returning the "msg too short" error the claim (and
the guard itself) intends. -/
theorem c5_decode_panic_on_wrapped_length :
    Decode idGzipCodec newMsgEncoderV1 corruptLenFrame =
      DecodeResult.panicked "slice bounds out of range" ∧
    corruptLenFrame.length < 12 + getUint32 corruptLenFrame 8 ∧
    corruptLenFrame.getD 0 0 = newMsgEncoderV1.magicN := by
  refine ⟨rfl, by decide, rfl⟩

/-- C6 (amended): encoding a payload whose post-compression framed size
exceeds the maximum segment length fails with the "msg too long" error,
provided that framed size is below 2^32 (the `uint32` cast in the
check wraps larger sizes around). -/
theorem c6_encode_rejects_oversize (g : GzipCodec) (e : MsgEncoderV1) (a : Int) (p : List Nat)
    (h1 : e.maxSegmentLen < 12 + (encBody g p).length)
    (h2 : 12 + (encBody g p).length < 4294967296) :
    Encode g e a p = Except.error "msg too long" := by
  rw [Encode, if_pos (by omega)]

/-- C6 witness: a 15-byte frame against a 13-byte maximum. -/
theorem c6_encode_rejects_oversize_witness :
    Encode idGzipCodec ⟨34, 13⟩ 0 [1, 2, 3] = Except.error "msg too long" :=
  c6_encode_rejects_oversize idGzipCodec ⟨34, 13⟩ 0 [1, 2, 3] (by decide) (by decide)

/-- C6 counterexample: with a compression outcome of 2^32 - 12 bytes the
framed size is 2^32, far above the 5242880-byte maximum, yet the
`uint32` cast wraps the length check to 0 and `Encode` emits a frame
instead of the claimed "too long" error. -/
theorem c6_wraparound_counterexample :
    5242880 < 12 + (encBody hugeGzipCodec (List.replicate 51201 0)).length ∧
    isOkFrame (Encode hugeGzipCodec newMsgEncoderV1 0 (List.replicate 51201 0)) = true := by
  have hb : encBody hugeGzipCodec (List.replicate 51201 0) = List.replicate 4294967284 0 := by
    unfold encBody
    rw [if_pos (by rw [List.length_replicate]; decide)]
    rfl
  constructor
  · rw [hb, List.length_replicate]
    decide
  · have hcond : ¬((12 + (encBody hugeGzipCodec (List.replicate 51201 0)).length) % 4294967296 >
        newMsgEncoderV1.maxSegmentLen) := by
      rw [hb, List.length_replicate]
      decide
    unfold Encode
    rw [if_neg hcond]
    rfl


/-- C2 counterexample: on the frame for action 7 (which has a registered
handler and decodes cleanly) the spawned `handleMsg` task completes the
handler and only then acknowledges — no acknowledgement event precedes
the handler-completion event, refuting the claimed ack-then-async
ordering. -/
theorem c2_ack_before_handler_counterexample :
    Ev.handlerDone ∈ handleMsgTrace cxEnv cxFrame ∧
    ¬ ackBeforeHandlerDone (handleMsgTrace cxEnv cxFrame) := by
  unfold ackBeforeHandlerDone
  decide

/-- C2 (amended): for every decodable delivery whose action key has a
registered handler, the spawned `handleMsg` task runs the handler to
completion and acknowledges the delivery afterwards (the ack is the
deferred last event of the task); the dispatch loop itself spawns the
task and does not wait for either. -/
theorem c2_ack_after_handler {H : Type} (w : HandleEnv H) (b : List Nat)
    (a : Int) (mb : List Nat)
    (hd : Decode w.g w.e b = DecodeResult.ok a mb)
    (hh : (w.handlers a).isSome = true) :
    handleMsgTrace w b =
      (if w.debugOn then [Ev.debugLog] else []) ++
        [Ev.handlerStart a mb, Ev.handlerDone, Ev.ack] := by
  cases hfind : w.handlers a with
  | none => rw [hfind] at hh; simp at hh
  | some h => simp only [handleMsgTrace, hd, hfind]

/-- C2 witness: the amended ordering at the concrete environment and
frame of the counterexample. -/
theorem c2_ack_after_handler_witness :
    handleMsgTrace cxEnv cxFrame = [Ev.handlerStart 7 [9], Ev.handlerDone, Ev.ack] := by
  have h := c2_ack_after_handler cxEnv cxFrame 7 [9] (by decide) (by decide)
  simpa [cxEnv] using h

/-- Running the retry loop when attempts `i, i+1, ..., i+k-1` fail and
attempt `i+k` succeeds: the loop returns nil after `k+1` publish calls
and `k` warnings. -/
theorem postLoop_success (publish : Nat → Option String) :
    ∀ (k i fuel : Nat), (∀ j, j < k → publish (i + j) ≠ none) →
      publish (i + k) = none → k < fuel →
      postLoop publish i fuel = (none, k + 1, k) := by
  intro k
  induction k with
  | zero =>
    intro i fuel _ hsucc hfuel
    match fuel, hfuel with
    | 1, _ =>
      rw [postLoop]
      rw [show publish i = none from by simpa using hsucc]
    | n + 2, _ =>
      rw [postLoop]
      rw [show publish i = none from by simpa using hsucc]
  | succ k ih =>
    intro i fuel hfail hsucc hfuel
    match fuel, hfuel with
    | n + 2, hfuel =>
      have hpi : publish i ≠ none := by
        have := hfail 0 (Nat.succ_pos k)
        simpa using this
      cases hpi2 : publish i with
      | none => exact absurd hpi2 hpi
      | some er =>
        rw [postLoop, hpi2]
        have hn : k < n + 1 := by omega
        have hrec := ih (i + 1) (n + 1)
          (fun j hj => by
            have := hfail (j + 1) (by omega)
            simpa [Nat.add_assoc, Nat.add_comm 1 j] using this)
          (by
            have : i + (k + 1) = i + 1 + k := by omega
            rw [this] at hsucc
            exact hsucc)
          hn
        rw [hrec]

/-- Running the retry loop when every attempt fails: all `fuel` publish
calls are made, each warns, and the loop exits with the last attempt's
error. -/
theorem postLoop_allfail (publish : Nat → Option String) :
    ∀ (fuel i : Nat), 0 < fuel → (∀ j, j < fuel → publish (i + j) ≠ none) →
      ∃ er, publish (i + (fuel - 1)) = some er ∧
        postLoop publish i fuel = (some er, fuel, fuel) := by
  intro fuel
  induction fuel with
  | zero => intro i h; omega
  | succ n ih =>
    intro i _ hfail
    cases n with
    | zero =>
      cases hpi : publish i with
      | none => exact absurd (by simpa using hpi) (by simpa using hfail 0 (by omega))
      | some er =>
        refine ⟨er, by simpa using hpi, ?_⟩
        rw [postLoop, hpi]
    | succ m =>
      cases hpi : publish i with
      | none => exact absurd (by simpa using hpi) (by simpa using hfail 0 (by omega))
      | some er0 =>
        obtain ⟨er, her, hrec⟩ := ih (i + 1) (by omega)
          (fun j hj => by
            have := hfail (j + 1) (by omega)
            simpa [Nat.add_assoc, Nat.add_comm 1 j] using this)
        refine ⟨er, ?_, ?_⟩
        · have : i + 1 + (m + 1 - 1) = i + (m + 2 - 1) := by omega
          rw [this] at her
          exact her
        · rw [postLoop, hpi, hrec]

/-- C3: with the producer enabled, a successful encode and a configured
warning sink, a transport that fails the first `k` attempts and succeeds
on attempt `k+1` (where `k ≤ retries`) makes `Post` return nil after
`k+1` publish attempts with exactly `k` warning events; a transport that
always fails makes `Post` perform exactly `retries+1` publish attempts,
warn on each, and return the last attempt's error. -/
theorem c3_post_retry :
    (∀ (publish : Nat → Option String) (frame : List Nat) (k retries : Nat),
        k ≤ retries → (∀ j, j < k → publish j ≠ none) → publish k = none →
        Post true true (Except.ok frame) publish (retries : Int) =
          ⟨none, k + 1, k⟩) ∧
    (∀ (publish : Nat → Option String) (frame : List Nat) (retries : Nat),
        (∀ j, j ≤ retries → publish j ≠ none) →
        ∃ er, publish retries = some er ∧
          Post true true (Except.ok frame) publish (retries : Int) =
            ⟨some er, retries + 1, retries + 1⟩) := by
  have htn : ∀ retries : Nat, ((retries : Int) + 1).toNat = retries + 1 := by
    intro retries; omega
  constructor
  · intro publish frame k retries hk hfail hsucc
    rw [Post]
    rw [if_neg (by simp)]
    rw [htn]
    rw [postLoop_success publish k 0 (retries + 1)
      (fun j hj => by simpa using hfail j hj) (by simpa using hsucc) (by omega)]
    rfl
  · intro publish frame retries hfail
    obtain ⟨er, her, hloop⟩ := postLoop_allfail publish (retries + 1) 0 (by omega)
      (fun j hj => by simpa using hfail j (by omega))
    refine ⟨er, by simpa using her, ?_⟩
    rw [Post]
    rw [if_neg (by simp)]
    rw [htn]
    rw [hloop]
    rfl

/-- C3 witness: attempt 0 fails and attempt 1 succeeds with 2 retries
allowed; and a transport that always fails with 1 retry allowed. -/
theorem c3_post_retry_witness :
    Post true true (Except.ok []) (fun i => if i < 1 then some "brk" else none) (2 : Int) =
      ⟨none, 2, 1⟩ ∧
    Post true true (Except.ok []) (fun _ => some "brk") (1 : Int) =
      ⟨some "brk", 2, 2⟩ := by
  constructor
  · exact c3_post_retry.1 (fun i => if i < 1 then some "brk" else none) [] 1 2
      (by omega)
      (fun j hj => by
        have : j = 0 := by omega
        rw [this]
        simp)
      (by simp)
  · obtain ⟨er, her, hpost⟩ := c3_post_retry.2 (fun _ => some "brk") [] 1
      (fun j _ => by simp)
    have : er = "brk" := by simpa using her.symm
    rw [this] at hpost
    exact hpost

/-- C10: a negative `retry` makes the loop bound `retry + 1` at most
zero, so `Post` performs no publish attempt at all, emits no warning,
and returns nil — it reports success without contacting the transport. -/
theorem c10_negative_retry_skips_publish (publish : Nat → Option String)
    (frame : List Nat) (warnOn : Bool) (retry : Int) (h : retry < 0) :
    Post true warnOn (Except.ok frame) publish retry = ⟨none, 0, 0⟩ := by
  have htn : (retry + 1).toNat = 0 := by omega
  rw [Post]
  rw [if_neg (by simp)]
  rw [htn]
  rw [postLoop]
  simp

/-- C10 witness: `retry = -1` with a transport that would always fail. -/
theorem c10_negative_retry_skips_publish_witness :
    Post true true (Except.ok []) (fun _ => some "brk") (-1 : Int) = ⟨none, 0, 0⟩ :=
  c10_negative_retry_skips_publish (fun _ => some "brk") [] true (-1) (by decide)

/-- C7: the registry is append-only — registering a nil handler fails,
registering under a key that already has a handler fails and lookup
still returns the first handler, a fresh key registers successfully and
is then protected against replacement, and looking up an unregistered
key returns the `none` sentinel rather than an error. -/
theorem c7_handler_registry {H : Type} :
    (∀ (handlers : Int → Option H) (k : Int),
        ∃ er, RegistActionHandler handlers k none = Except.error er) ∧
    (∀ (handlers : Int → Option H) (k : Int) (f₀ : H),
        handlers k = some f₀ →
        (∀ f, ∃ er, RegistActionHandler handlers k (some f) = Except.error er) ∧
        findHandler handlers k = some f₀) ∧
    (∀ (handlers : Int → Option H) (k : Int) (f₀ : H), handlers k = none →
        ∃ h₁, RegistActionHandler handlers k (some f₀) = Except.ok h₁ ∧
          findHandler h₁ k = some f₀ ∧
          ∀ f, ∃ er, RegistActionHandler h₁ k (some f) = Except.error er) ∧
    (∀ (handlers : Int → Option H) (k : Int), handlers k = none →
        findHandler handlers k = none) := by
  refine ⟨?_, ?_, ?_, ?_⟩
  · intro handlers k
    exact ⟨_, rfl⟩
  · intro handlers k f₀ h₀
    constructor
    · intro f
      have heq : RegistActionHandler handlers k (some f) =
          Except.error ("Msg handler for '" ++ toString k ++ "' had been existed") := by
        rw [RegistActionHandler, if_neg (by simp), if_pos (by rw [h₀]; rfl)]
      exact ⟨_, heq⟩
    · rw [findHandler, h₀]
  · intro handlers k f₀ h₀
    refine ⟨fun j => if j = k then some f₀ else handlers j, ?_, ?_, ?_⟩
    · rw [RegistActionHandler, if_neg (by simp), if_neg (by rw [h₀]; simp)]
    · simp [findHandler]
    · intro f
      have heq : RegistActionHandler (fun j => if j = k then some f₀ else handlers j) k
          (some f) =
          Except.error ("Msg handler for '" ++ toString k ++ "' had been existed") := by
        rw [RegistActionHandler, if_neg (by simp), if_pos (by simp)]
      exact ⟨_, heq⟩
  · intro handlers k h₀
    rw [findHandler, h₀]

/-- C7 witness: a fresh registration of handler 5 under key 3 on the
empty registry, and its protection against replacement. -/
theorem c7_handler_registry_witness :
    ∃ h₁, RegistActionHandler (fun _ : Int => (none : Option Nat)) 3 (some 5) =
        Except.ok h₁ ∧
      findHandler h₁ 3 = some 5 ∧
      ∀ f, ∃ er, RegistActionHandler h₁ 3 (some f) = Except.error er :=
  (@c7_handler_registry Nat).2.2.1 (fun _ => none) 3 5 rfl

/-- C8: `Close` never panics and never returns an error; it performs the
`close(stopConsumeCh)` operation exactly once when the stop channel is
open and not at all otherwise; and a second `Close` on the resulting
state is a no-op returning the same state, no error and zero close
operations — `Close ∘ Close` equals a single `Close` on the wrapper
state. -/
theorem c8_close_idempotent (s : CloseState) :
    ∃ o : CloseOutcome, Close s = Except.ok o ∧ o.result = none ∧
      o.chanCloses = (if s.stopCh = some false then 1 else 0) ∧
      Close o.state = Except.ok ⟨o.state, none, 0⟩ := by
  obtain ⟨m, st⟩ := s
  match st with
  | none => exact ⟨⟨⟨m, none⟩, none, 0⟩, rfl, rfl, rfl, rfl⟩
  | some true => exact ⟨⟨⟨m, some true⟩, none, 0⟩, rfl, rfl, rfl, rfl⟩
  | some false => exact ⟨⟨⟨m, some true⟩, none, 1⟩, rfl, rfl, rfl, rfl⟩


/-- An enabled producer role with an empty required field makes the
producer block of `ValidateConf` fail. -/
theorem validateProducerConf_pos (conf : Config) (hp : conf.enableProducer = true)
    (h : conf.producerExchange.length = 0 ∨ conf.producerQueue.length = 0 ∨
      conf.producerRouteKey.length = 0 ∨ conf.producerExchangeKind.length = 0) :
    (validateProducerConf conf).isSome = true := by
  rw [validateProducerConf, if_pos hp]
  rcases h with h | h | h | h <;> split_ifs <;> simp_all

/-- An enabled consumer role with an empty required field makes the
consumer block of `ValidateConf` fail. -/
theorem validateConsumerConf_pos (conf : Config) (hc : conf.enableConsumer = true)
    (h : conf.consumerExchange.length = 0 ∨ conf.consumerQueue.length = 0 ∨
      conf.consumerRouteKey.length = 0 ∨ conf.consumerExchangeKind.length = 0) :
    (validateConsumerConf conf).isSome = true := by
  rw [validateConsumerConf, if_pos hc]
  rcases h with h | h | h | h <;> split_ifs <;> simp_all

/-- C9: `ValidateConf` fails on every configuration with a missing
readiness gate, an empty broker URL, or an empty required
exchange/exchange-kind/queue/route-key field of an enabled role; and
whenever validation fails, `Open` returns that error with no transport
handle, no producer or consumer session, no delivery channel, no stop
channel and no dispatch loop established — only the id and config
assignments made before validation remain. -/
theorem c9_open_validation :
    (∀ conf : Config, missingRequiredField conf → (ValidateConf conf).isSome = true) ∧
    (∀ (tr : Transport) (wrapperId : String) (conf : Config) (er : String),
        ValidateConf conf = some er →
        OpenW tr wrapperId conf =
          (some er,
            { id := wrapperId, confSet := true, mSet := false, producerSet := false,
              consumerSet := false, deliverySet := false, stopChSet := false,
              stopChClosed := false, loopStarted := false })) := by
  constructor
  · intro conf h
    rw [ValidateConf]
    rcases h with h | h | ⟨hp, h⟩ | ⟨hc, h⟩
    · rw [if_pos h]; rfl
    · split_ifs <;> simp_all
    · split_ifs with h1 h2
      · rfl
      · rfl
      · have hv := validateProducerConf_pos conf hp h
        cases hvp : validateProducerConf conf with
        | none => rw [hvp] at hv; simp at hv
        | some e2 => rfl
    · split_ifs with h1 h2
      · rfl
      · rfl
      · cases hvp : validateProducerConf conf with
        | some e2 => rfl
        | none =>
          show (validateConsumerConf conf).isSome = true
          exact validateConsumerConf_pos conf hc h
  · intro tr wrapperId conf er hv
    simp only [OpenW, hv]
    rfl

/-- C9 witness: a configuration with a missing readiness gate fails
`Open` with the validation error and leaves no resource established. -/
theorem c9_open_validation_witness :
    OpenW cxTransport "w1" cxBadConf =
      (some "Ready flag in config is nil",
        { id := "w1", confSet := true, mSet := false, producerSet := false,
          consumerSet := false, deliverySet := false, stopChSet := false,
          stopChClosed := false, loopStarted := false }) :=
  c9_open_validation.2 cxTransport "w1" cxBadConf "Ready flag in config is nil" rfl

end Mqw
